import Mathlib

/-!
A verification development for the outreach message pipeline of the
Master_jack repository (mcp-server).  Python text values are embedded as
`List Char`; enum-like fields (contact types, pipeline tags, field labels)
as `String`; `None`-able values as `Option`; the Postgres and Airtable
adapters as oracles supplied to the functions that call them.  Each
definition is translated from the named source function; prompt text that
only flows into the LLM request is elided, because the LLM response is
modelled as an explicit `generated` argument.
-/

/-- Models Python `str.isspace` membership for the characters `str.strip()`
and `str.split()` treat as whitespace (the ASCII whitespace set; the claims
never involve non-ASCII whitespace). -/
def pyIsSpace (c : Char) : Bool :=
  c == ' ' || c == '\t' || c == '\n' || c == '\r' || c == '\x0b' || c == '\x0c'

/-- Drop the leading and trailing characters satisfying `p`: the common core
of Python `str.strip()` and `str.strip(chars)`. -/
def pyStripBy (p : Char → Bool) (s : List Char) : List Char :=
  ((s.dropWhile p).reverse.dropWhile p).reverse

/-- Models Python `str.strip()` (no argument: strip whitespace). -/
def pyStripWs (s : List Char) : List Char :=
  pyStripBy pyIsSpace s

/-- Models the source's `strip('"\'')`: strip double and single quotes from
both ends. -/
def pyStripQuotes (s : List Char) : List Char :=
  pyStripBy (fun c => c == '"' || c == '\'') s

/-- The index of the last occurrence of `c` in `s`, if any: the semantic
content of Python `str.rfind` for a one-character needle. -/
def rfindAux (s : List Char) (c : Char) : Option Nat :=
  match s with
  | [] => none
  | a :: rest =>
    match rfindAux rest c with
    | some n => some (n + 1)
    | none => if a = c then some 0 else none

/-- Models Python `str.rfind(c)` for a one-character `c`: the highest index
where `c` occurs, and `-1` when it does not occur. -/
def rfind (s : List Char) (c : Char) : Int :=
  match rfindAux s c with
  | some n => (n : Int)
  | none => -1

/-- Models the Python slice `s[:n]` for an `n` that may be negative
(a negative `n` counts from the end, clamped at 0). -/
def pySliceTo (s : List Char) (n : Int) : List Char :=
  if 0 ≤ n then s.take n.toNat
  else s.take ((s.length : Int) + n).toNat

/-- The `ENFORCE character limit` block of
`OutreachTools.generate_cold_connect_note` (outreach.py lines 177-185):
truncate `message` to `max_length` characters, preferring the last sentence
end.  Python compares `cut_point > max_length * 0.6` in binary floating
point; the comparison is embedded as the exact rational test
`6 * max_length < 10 * cut_point`, which coincides with the float test for
every realistic `max_length` (in particular it is exact at the default 295
and at every input used below, where `max_length * 0.6` rounds to the exact
value). -/
def truncateHunter (message : List Char) (max_length : Nat) : List Char :=
  if max_length < message.length then
    let truncated := message.take max_length
    let last_period := rfind truncated '.'
    let last_question := rfind truncated '?'
    let cut_point := max last_period last_question
    if 6 * (max_length : Int) < 10 * cut_point then
      truncated.take (cut_point + 1).toNat
    else
      pySliceTo truncated ((max_length : Int) - 3) ++ String.toList "..."
  else message

/-- Helper for `pySplitWs`: walk the characters, accumulating the current
word in reverse. -/
def splitWsGo : List Char → List Char → List (List Char)
  | [], acc => if acc.isEmpty then [] else [acc.reverse]
  | c :: rest, acc =>
    if pyIsSpace c then
      if acc.isEmpty then splitWsGo rest [] else acc.reverse :: splitWsGo rest []
    else splitWsGo rest (c :: acc)

/-- Models Python `str.split()` (no argument): split on runs of whitespace,
never producing empty tokens.  A whitespace-only string splits to `[]`. -/
def pySplitWs (s : List Char) : List (List Char) :=
  splitWsGo s []

/-- The first-name extraction both generators share (outreach.py lines 88
and 232): `contact_name.split()[0] if contact_name else "there"`.  `none`
models the `IndexError` Python raises when a non-empty `contact_name`
splits to an empty token list. -/
def firstNameOpt (contact_name : List Char) : Option (List Char) :=
  if contact_name.isEmpty then some (String.toList "there")
  else (pySplitWs contact_name).head?

/-- Python truthiness of an optional string: `None` and `""` are falsy. -/
def optTruthy : Option (List Char) → Bool
  | none => false
  | some s => if s = [] then false else true

/-- Models Python `x or None` for a string `x`. -/
def orNone (s : List Char) : Option (List Char) :=
  if s = [] then none else some s

/-- Models the Python chain `x or y or ""` for an optional string `x` and a
string `y` (when both are falsy the chain yields `""`, which is `y` itself
since a falsy string is empty). -/
def pyOrText (x : Option (List Char)) (y : List Char) : List Char :=
  if optTruthy x then x.getD [] else y

/-- Models Python substring membership `needle in hay`. -/
def pyIn (needle hay : List Char) : Bool :=
  match hay with
  | [] => needle.isEmpty
  | c :: rest => needle.isPrefixOf (c :: rest) || pyIn needle rest

/-- Models Python `str.lower()` (the claims only involve ASCII text, where
`Char.toLower` agrees with Python). -/
def pyLower (s : List Char) : List Char :=
  s.map Char.toLower

/-- The characters of `"epic"`, the skill keyword the pipeline hard-codes. -/
def epicChars : List Char :=
  String.toList "epic"

/-- The header line of the cold-email value section in
`OutreachTools._build_value_section` (outreach.py line 34). -/
def coldEmailSectionHeader : List Char :=
  String.toList "Cold email template to condense (DO NOT copy verbatim — distill the core value):\n"

/-- The header line of the resume-context value section (outreach.py line 36). -/
def resumeSectionHeader : List Char :=
  String.toList "Resume context to draw from:\n"

/-- The header line of the highlights value section (outreach.py line 38). -/
def highlightsSectionHeader : List Char :=
  String.toList "Background highlights:\n"

/-- The fixed sentence returned when no background source is available
(outreach.py line 39). -/
def noBackgroundSentence : List Char :=
  String.toList "No specific background provided. Focus on genuine interest in the role."

/-- `OutreachTools._build_value_section` (outreach.py lines 26-39): pick the
value section for the user prompt by strict priority. -/
def _build_value_section (cold_email_template resume_context : Option (List Char))
    (resume_highlights : List Char) : List Char :=
  if optTruthy cold_email_template then
    coldEmailSectionHeader ++ (cold_email_template.getD []).take 800
  else if optTruthy resume_context then
    resumeSectionHeader ++ (resume_context.getD []).take 500
  else if resume_highlights ≠ [] then
    highlightsSectionHeader ++ resume_highlights.take 500
  else noBackgroundSentence

/-- The result dict of `generate_cold_connect_note` (outreach.py lines
187-195).  `msg_type` embeds the dict key `"type"`. -/
structure HunterResult where
  success : Bool
  message : List Char
  char_count : Nat
  max_allowed : Nat
  has_epic_gap : Bool
  msg_type : String
  pipeline : String
  deriving DecidableEq

/-- `OutreachTools.generate_cold_connect_note` (outreach.py lines 51-195).
`generated` is the text the generation backend returns for the prompts;
prompt-only parameters (`contact_title`, `contact_type`, `company`,
`job_title`) are elided because they flow only into those prompts, while
`cold_email_template`, `resume_context` and `resume_highlights` are kept
(they also feed the prompt via `_build_value_section`, but the epic-gap
computation reads the latter two and the claims quantify over the first).
`none` models the `IndexError` of the first-name extraction. -/
def generate_cold_connect_note (generated contact_name job_description : List Char)
    (cold_email_template resume_context : Option (List Char))
    (resume_highlights : List Char) (max_length : Nat) : Option HunterResult :=
  match firstNameOpt contact_name with
  | none => none
  | some _ =>
    let check_text := pyLower (pyOrText resume_context resume_highlights)
    let has_epic_requirement :=
      if job_description ≠ [] then pyIn epicChars (pyLower job_description) else false
    let has_epic_skill := pyIn epicChars check_text
    let has_epic_gap := has_epic_requirement && !has_epic_skill
    let message0 := pyStripQuotes (pyStripWs generated)
    let message := truncateHunter message0 max_length
    some { success := true, message := message, char_count := message.length,
           max_allowed := max_length, has_epic_gap := has_epic_gap,
           msg_type := "cold_connect_note", pipeline := "hunter" }

/-- The result dict of `generate_warm_dm` (outreach.py lines 292-298). -/
structure FarmerResult where
  success : Bool
  message : List Char
  char_count : Nat
  msg_type : String
  pipeline : String
  deriving DecidableEq

/-- `OutreachTools.generate_warm_dm` (outreach.py lines 199-298).  As for
the hunter generator, `generated` is the backend's response and prompt-only
parameters (`company`, `target_role`, `connected_date`, `contact_title`,
`contact_type`) are elided; the value-section inputs are kept for the
signature (they feed `_build_value_section` for the prompt).  `none` models
the `IndexError` of the first-name extraction on line 232. -/
def generate_warm_dm (generated contact_name : List Char)
    (cold_email_template resume_context resume_highlights : Option (List Char)) :
    Option FarmerResult :=
  match firstNameOpt contact_name with
  | none => none
  | some _ =>
    let message := pyStripQuotes (pyStripWs generated)
    some { success := true, message := message, char_count := message.length,
           msg_type := "warm_dm", pipeline := "farmer" }

/-- The result dict of `refine_message` (outreach.py lines 362-368). -/
structure RefineResult where
  success : Bool
  message : List Char
  char_count : Nat
  max_allowed : Option Nat
  pipeline : String
  deriving DecidableEq

/-- The `max_length` defaulting at the top of `refine_message` (outreach.py
lines 322-323): `if pipeline == "hunter" and max_length is None:
max_length = 295`. -/
def effectiveMax (max_length : Option Nat) (pipeline : String) : Option Nat :=
  if pipeline = "hunter" ∧ max_length = none then some 295 else max_length

/-- `OutreachTools.refine_message` (outreach.py lines 302-368).  `generated`
is the backend's response to the edit prompt; `current_message` and
`edit_instruction` are prompt-only and elided.  The limit check is Python
`if max_length and len(message) > max_length`, so a limit of `0` is falsy;
lengths are embedded as `Nat` (the source never passes a negative limit). -/
def refine_message (generated : List Char) (max_length : Option Nat)
    (pipeline : String) : RefineResult :=
  let ml := effectiveMax max_length pipeline
  let message0 := pyStripQuotes (pyStripWs generated)
  let message :=
    match ml with
    | some m =>
      if m ≠ 0 ∧ m < message0.length then
        pySliceTo message0 ((m : Int) - 3) ++ String.toList "..."
      else message0
    | none => message0
  { success := true, message := message, char_count := message.length,
    max_allowed := ml, pipeline := pipeline }

/-- `OutreachTools.determine_pipeline` (outreach.py lines 372-384). -/
def determine_pipeline (connection_degree contact_source : String) : String :=
  if connection_degree = "1st" ∨ contact_source = "csv_import" then "farmer"
  else "hunter"

/-- A row of the `generated_resumes` table as `get_tailored_resume` returns
it (resume.py lines 222-234): every text field already defaulted to `""`
by its `or ""`.  Fields no claim reads (`cover_letter_content`,
`similarity_score`, the version columns, ids and timestamps) are elided. -/
structure GeneratedResumeRecord where
  tailored_content : List Char
  final_content : List Char
  cold_email_recruiter : List Char
  cold_email_manager : List Char
  deriving DecidableEq

/-- The external state the resume tools read: the `generated_resumes` table
keyed by `application_id`, and the `full_text` the legacy
`get_active_resume` resolves to (`""` when that lookup fails, matching its
failure dict). -/
structure Env where
  generated_resumes : Int → Option GeneratedResumeRecord
  active_full_text : List Char

/-- `ResumeTools.get_tailored_resume` (resume.py lines 189-247) with the
database modelled as the `Env` oracle: `none` is the failure dict (no row,
or a database error). -/
def get_tailored_resume (env : Env) (application_id : Int) :
    Option GeneratedResumeRecord :=
  env.generated_resumes application_id

/-- The error message of `get_tailored_resume`'s no-row failure (resume.py
line 238), which `get_cold_email` forwards as its `note`. -/
def noResumeError (application_id : Int) : String :=
  "No generated resume found for application_id " ++ toString application_id

/-- The contact-type routing of `get_cold_email` (resume.py lines 287-296):
the role-specific cold-email candidate, `none` for `team_member` and every
other contact type, and `none` when the routed field is empty (its
`or None`). -/
def roleColdEmail (rd : GeneratedResumeRecord) (contact_type : String) :
    Option (List Char) :=
  if contact_type = "hiring_manager" then orNone rd.cold_email_manager
  else if contact_type = "recruiter" then orNone rd.cold_email_recruiter
  else none

/-- The `source_field` label the routing assigns before the fallback branch
may overwrite it (resume.py lines 290-295). -/
def roleSourceField (contact_type : String) : Option String :=
  if contact_type = "hiring_manager" then some "cold_email_manager"
  else if contact_type = "recruiter" then some "cold_email_recruiter"
  else none

/-- The result dict of `get_cold_email` (resume.py lines 277-321). -/
structure ColdEmailResult where
  cold_email : Option (List Char)
  resume_context : Option (List Char)
  fallback_used : Bool
  source_field : Option String
  note : Option String
  deriving DecidableEq

/-- `ResumeTools.get_cold_email` (resume.py lines 249-321). -/
def get_cold_email (env : Env) (application_id : Int) (contact_type : String) :
    ColdEmailResult :=
  match get_tailored_resume env application_id with
  | none =>
    { cold_email := none, resume_context := none, fallback_used := true,
      source_field := none, note := some (noResumeError application_id) }
  | some rd =>
    match roleColdEmail rd contact_type with
    | some ce =>
      { cold_email := some ce, resume_context := some rd.final_content,
        fallback_used := false, source_field := roleSourceField contact_type,
        note := none }
    | none =>
      { cold_email := none,
        resume_context :=
          if rd.final_content ≠ [] then some rd.final_content
          else if rd.tailored_content ≠ [] then some rd.tailored_content
          else none,
        fallback_used := true,
        source_field :=
          some (if rd.final_content ≠ [] then "final_content"
                else "tailored_content"),
        note := none }

/-- The resume-text resolution at the top of `check_skill_match` (resume.py
lines 343-348): the tailored resume when a truthy (non-`None`, non-zero)
`application_id` is given, else the active resume's `full_text`; each
failure dict resolves to `""` through the `or` chains and the
`get("full_text", "")` default. -/
def resolveResumeText (env : Env) (application_id : Option Int) : List Char :=
  match application_id with
  | some i =>
    if i ≠ 0 then
      match get_tailored_resume env i with
      | some rd =>
        if rd.final_content ≠ [] then rd.final_content
        else if rd.tailored_content ≠ [] then rd.tailored_content
        else []
      | none => []
    else env.active_full_text
  | none => env.active_full_text

/-- The result dict of `check_skill_match` (resume.py lines 357-366). -/
structure SkillMatchResult where
  skill : List Char
  requirement_found : Bool
  skill_found : Bool
  has_gap : Bool
  recommendation : Option (List Char)
  deriving DecidableEq

/-- The recommendation template of `check_skill_match` (resume.py lines
362-365): fixed text around the checked skill. -/
def recommendationText (skill_to_check : List Char) : List Char :=
  String.toList "JD requires '" ++ skill_to_check ++
    String.toList "' but resume doesn't mention it. Address this gap in outreach."

/-- The containment core of `check_skill_match` (resume.py lines 350-366),
after the resume text is resolved. -/
def skill_match_core (job_description skill_to_check resume_text : List Char) :
    SkillMatchResult :=
  let jd_lower := pyLower job_description
  let resume_lower := pyLower resume_text
  let skill_lower := pyLower skill_to_check
  let requirement_found := pyIn skill_lower jd_lower
  let skill_found := pyIn skill_lower resume_lower
  { skill := skill_to_check, requirement_found := requirement_found,
    skill_found := skill_found,
    has_gap := requirement_found && !skill_found,
    recommendation :=
      if requirement_found && !skill_found then
        some (recommendationText skill_to_check)
      else none }

/-- `ResumeTools.check_skill_match` (resume.py lines 325-366). -/
def check_skill_match (env : Env) (job_description skill_to_check : List Char)
    (application_id : Option Int) : SkillMatchResult :=
  skill_match_core job_description skill_to_check
    (resolveResumeText env application_id)

/-- Python truthiness of an optional short string (`None` and `""` falsy),
for the `if resume_postgres_id:` guards in the resolver. -/
def optStrTruthy : Option String → Bool
  | none => false
  | some s => if s = "" then false else true

/-- Models Python `int(s)` for a decimal string: optional surrounding
whitespace, an optional sign, then decimal digits; `none` models the
`ValueError` for anything else (the underscore digit grouping Python also
accepts is not modelled; no claim depends on it). -/
def pyParseInt (s : String) : Option Int :=
  let t := pyStripWs s.toList
  match t with
  | [] => none
  | '+' :: ds =>
    if ds ≠ [] ∧ ds.all Char.isDigit then
      some ((ds.foldl (fun acc c => 10 * acc + (c.toNat - '0'.toNat)) 0 : Nat) : Int)
    else none
  | '-' :: ds =>
    if ds ≠ [] ∧ ds.all Char.isDigit then
      some (-((ds.foldl (fun acc c => 10 * acc + (c.toNat - '0'.toNat)) 0 : Nat) : Int))
    else none
  | ds =>
    if ds.all Char.isDigit then
      some ((ds.foldl (fun acc c => 10 * acc + (c.toNat - '0'.toNat)) 0 : Nat) : Int)
    else none

/-- What `get_contact_with_job` hands the resolver (server.py lines
333-349), with the fields the resolver reads: the adapter's `success` flag
and `error` message, and the `contact_type`, `resume_postgres_id` and
`job_description` extracted from the contact and job dicts.  An adapter
response that omits `error` is `none` (the resolver then substitutes its
default). -/
structure ContactJobFetch where
  success : Bool
  error : Option String
  contact_type : String
  resume_postgres_id : Option String
  job_description : List Char
  deriving DecidableEq

/-- The preset `cold_email_data` dict of the resolver (server.py lines
352-357). -/
def emptyColdEmailData : ColdEmailResult :=
  { cold_email := none, resume_context := none, fallback_used := true,
    source_field := none, note := none }

/-- Step 2 of `get_outreach_context` (server.py lines 351-365): resolve the
cold email when a truthy `resume_postgres_id` is present; an `int(...)`
parse failure is caught and recorded as a note on the preset dict. -/
def resolve_cold_email_step (env : Env) (contact_type : String)
    (resume_postgres_id : Option String) : ColdEmailResult :=
  if optStrTruthy resume_postgres_id then
    match pyParseInt (resume_postgres_id.getD "") with
    | some application_id => get_cold_email env application_id contact_type
    | none =>
      { emptyColdEmailData with
        note := some ("Invalid resume_postgres_id: " ++ resume_postgres_id.getD "") }
  else emptyColdEmailData

/-- The preset `epic_check` dict `{"has_gap": False}` of the resolver
(server.py line 368); only `has_gap` and `recommendation` are read from it
(via `.get`, defaulting to `False` and `None`). -/
def defaultEpicCheck : SkillMatchResult :=
  { skill := [], requirement_found := false, skill_found := false,
    has_gap := false, recommendation := none }

/-- Step 3 of `get_outreach_context` (server.py lines 367-377): epic gap
detection, falling back to the generic resume on a parse failure or a
missing `resume_postgres_id`, and skipped entirely for an empty
`job_description`. -/
def resolve_epic_step (env : Env) (job_description : List Char)
    (resume_postgres_id : Option String) : SkillMatchResult :=
  if job_description ≠ [] then
    if optStrTruthy resume_postgres_id then
      match pyParseInt (resume_postgres_id.getD "") with
      | some application_id =>
        check_skill_match env job_description epicChars (some application_id)
      | none => check_skill_match env job_description epicChars none
    else check_skill_match env job_description epicChars none
  else defaultEpicCheck

/-- The success dict of `get_outreach_context` (server.py lines 379-389);
the `contact` and `job` passthrough fields are elided (no claim reads
them), and the dict has no `note` key — the note recorded in step 2 stays
internal. -/
structure OutreachSuccess where
  cold_email : Option (List Char)
  resume_context : Option (List Char)
  fallback_used : Bool
  source_field : Option String
  has_epic_gap : Bool
  epic_recommendation : Option (List Char)
  deriving DecidableEq

/-- The two shapes `get_outreach_context` returns: the failure dict of
server.py lines 336-341, or the success dict of lines 379-389. -/
inductive OutreachContextResult where
  | failure (error : String)
  | ok (ctx : OutreachSuccess)
  deriving DecidableEq

/-- `get_outreach_context` (server.py lines 318-389), the outreach context
resolver. -/
def get_outreach_context (env : Env) (fetch : ContactJobFetch) :
    OutreachContextResult :=
  if fetch.success then
    let cold_email_data :=
      resolve_cold_email_step env fetch.contact_type fetch.resume_postgres_id
    let epic_check :=
      resolve_epic_step env fetch.job_description fetch.resume_postgres_id
    .ok { cold_email := cold_email_data.cold_email,
          resume_context := cold_email_data.resume_context,
          fallback_used := cold_email_data.fallback_used,
          source_field := cold_email_data.source_field,
          has_epic_gap := epic_check.has_gap,
          epic_recommendation := epic_check.recommendation }
  else .failure (fetch.error.getD "Failed to fetch contact")

theorem rfindAux_lt_length {s : List Char} {c : Char} {n : Nat}
    (h : rfindAux s c = some n) : n < s.length := by
  induction s generalizing n with
  | nil => simp [rfindAux] at h
  | cons a rest ih =>
    rw [rfindAux] at h
    cases hr : rfindAux rest c with
    | some m =>
      rw [hr] at h
      simp only [Option.some.injEq] at h
      have := ih hr
      simp [← h]
      omega
    | none =>
      rw [hr] at h
      by_cases hac : a = c
      · rw [if_pos hac] at h
        simp only [Option.some.injEq] at h
        simp [← h]
      · rw [if_neg hac] at h
        cases h

theorem rfindAux_getElem {s : List Char} {c : Char} {n : Nat}
    (h : rfindAux s c = some n) : s[n]? = some c := by
  induction s generalizing n with
  | nil => simp [rfindAux] at h
  | cons a rest ih =>
    rw [rfindAux] at h
    cases hr : rfindAux rest c with
    | some m =>
      rw [hr] at h
      simp only [Option.some.injEq] at h
      rw [← h]
      simpa using ih hr
    | none =>
      rw [hr] at h
      by_cases hac : a = c
      · rw [if_pos hac] at h
        simp only [Option.some.injEq] at h
        rw [← h]
        simp [hac]
      · rw [if_neg hac] at h
        cases h

theorem rfindAux_none {s : List Char} {c : Char}
    (h : rfindAux s c = none) : ∀ j : Nat, s[j]? ≠ some c := by
  induction s with
  | nil => intro j; simp
  | cons a rest ih =>
    rw [rfindAux] at h
    cases hr : rfindAux rest c with
    | some m => rw [hr] at h; cases h
    | none =>
      rw [hr] at h
      by_cases hac : a = c
      · rw [if_pos hac] at h; cases h
      · intro j
        cases j with
        | zero => simpa using hac
        | succ i => simpa using ih hr i

theorem rfindAux_greatest {s : List Char} {c : Char} {n : Nat}
    (h : rfindAux s c = some n) : ∀ j : Nat, n < j → s[j]? ≠ some c := by
  induction s generalizing n with
  | nil => simp [rfindAux] at h
  | cons a rest ih =>
    rw [rfindAux] at h
    cases hr : rfindAux rest c with
    | some m =>
      rw [hr] at h
      simp only [Option.some.injEq] at h
      intro j hj
      cases j with
      | zero => omega
      | succ i =>
        have : m < i := by omega
        simpa using ih hr i this
    | none =>
      rw [hr] at h
      by_cases hac : a = c
      · rw [if_pos hac] at h
        simp only [Option.some.injEq] at h
        intro j hj
        cases j with
        | zero => omega
        | succ i => simpa using rfindAux_none hr i
      · rw [if_neg hac] at h
        cases h

theorem getLast?_take_succ {s : List Char} {k : Nat} (hk : k < s.length) :
    (s.take (k + 1)).getLast? = s[k]? := by
  rw [List.getLast?_eq_getElem?, List.length_take]
  have h1 : min (k + 1) s.length - 1 = k := by omega
  rw [h1, List.getElem?_take]
  simp

/-- The no-truncation case of the limit enforcement: a message within the
limit passes through unchanged. -/
theorem truncateHunter_eq_of_le {msg : List Char} {m : Nat}
    (h : msg.length ≤ m) : truncateHunter msg m = msg := by
  unfold truncateHunter
  rw [if_neg (by omega)]

/-- The truncation never exceeds the limit (for a limit of at least 3, so
that `max_length - 3` is an ordinary forward slice). -/
theorem truncateHunter_length_le {msg : List Char} {m : Nat} (hm : 3 ≤ m)
    (h : m < msg.length) : (truncateHunter msg m).length ≤ m := by
  unfold truncateHunter
  rw [if_pos h]
  dsimp only
  split
  · simp [List.length_take]
  · have h0 : (0 : Int) ≤ (m : Int) - 3 := by omega
    simp only [pySliceTo, if_pos h0]
    have h3 : (String.toList "...").length = 3 := rfl
    simp [List.length_take, h3]
    omega

/-- A truncated message ends at a sentence end or with the appended
ellipsis. -/
theorem truncateHunter_ends {msg : List Char} {m : Nat} (hm : 3 ≤ m)
    (h : m < msg.length) :
    (truncateHunter msg m).getLast? = some '.' ∨
    (truncateHunter msg m).getLast? = some '?' ∨
    List.IsSuffix (String.toList "...") (truncateHunter msg m) := by
  unfold truncateHunter
  rw [if_pos h]
  dsimp only
  have htl : (msg.take m).length = m := by rw [List.length_take]; omega
  split
  · rename_i hc
    rcases max_choice (rfind (msg.take m) '.') (rfind (msg.take m) '?') with hmx | hmx
    · rw [hmx] at hc ⊢
      cases hra : rfindAux (msg.take m) '.' with
      | none => simp only [rfind, hra] at hc; omega
      | some n =>
        have hg := rfindAux_getElem hra
        have hl := rfindAux_lt_length hra
        simp only [rfind, hra] at hc ⊢
        have htn : ((n : Int) + 1).toNat = n + 1 := by omega
        rw [htn, getLast?_take_succ hl]
        left
        exact hg
    · rw [hmx] at hc ⊢
      cases hra : rfindAux (msg.take m) '?' with
      | none => simp only [rfind, hra] at hc; omega
      | some n =>
        have hg := rfindAux_getElem hra
        have hl := rfindAux_lt_length hra
        simp only [rfind, hra] at hc ⊢
        have htn : ((n : Int) + 1).toNat = n + 1 := by omega
        rw [htn, getLast?_take_succ hl]
        right
        left
        exact hg
  · right
    right
    exact List.suffix_append _ _

/-- The message field a hunter generation returns is the truncation of the
stripped backend response. -/
theorem generate_cold_connect_note_message
    {generated contact_name job_description : List Char}
    {cold_email_template resume_context : Option (List Char)}
    {resume_highlights : List Char} {max_length : Nat} {r : HunterResult}
    (h : generate_cold_connect_note generated contact_name job_description
      cold_email_template resume_context resume_highlights max_length = some r) :
    r.message = truncateHunter (pyStripQuotes (pyStripWs generated)) max_length := by
  unfold generate_cold_connect_note at h
  cases hfn : firstNameOpt contact_name with
  | none => rw [hfn] at h; cases h
  | some fn =>
    rw [hfn] at h
    simp only [Option.some.injEq] at h
    rw [← h]

/-- C1: every message `generate_cold_connect_note` returns satisfies
`len(message) <= max_length`, and whenever the truncation step fired (the
stripped generated text exceeded `max_length`) the returned message ends in
`'.'`, `'?'`, or `"..."`.  Stated for `3 ≤ max_length` (the default is
295), where the `max_length - 3` slice is a forward slice. -/
theorem hunter_message_respects_max_length
    (generated contact_name job_description : List Char)
    (cold_email_template resume_context : Option (List Char))
    (resume_highlights : List Char) (max_length : Nat) (r : HunterResult)
    (hm : 3 ≤ max_length)
    (h : generate_cold_connect_note generated contact_name job_description
      cold_email_template resume_context resume_highlights max_length = some r) :
    r.message.length ≤ max_length ∧
    (max_length < (pyStripQuotes (pyStripWs generated)).length →
      r.message.getLast? = some '.' ∨ r.message.getLast? = some '?' ∨
      List.IsSuffix (String.toList "...") r.message) := by
  have hmsg := generate_cold_connect_note_message h
  constructor
  · rw [hmsg]
    by_cases hlen : max_length < (pyStripQuotes (pyStripWs generated)).length
    · exact truncateHunter_length_le hm hlen
    · rw [truncateHunter_eq_of_le (by omega)]
      omega
  · intro hlen
    rw [hmsg]
    exact truncateHunter_ends hm hlen

/-- The concrete result of the hunter generator used as the C1 witness
input: response `"abcdefgh"`, limit 5. -/
def hunterWitnessR : HunterResult :=
  { success := true, message := String.toList "ab...", char_count := 5,
    max_allowed := 5, has_epic_gap := false,
    msg_type := "cold_connect_note", pipeline := "hunter" }

/-- C1 witness: the contract at the concrete call above. -/
theorem hunter_message_respects_max_length_check :
    hunterWitnessR.message.length ≤ 5 ∧
    (5 < (pyStripQuotes (pyStripWs (String.toList "abcdefgh"))).length →
      hunterWitnessR.message.getLast? = some '.' ∨
      hunterWitnessR.message.getLast? = some '?' ∨
      List.IsSuffix (String.toList "...") hunterWitnessR.message) :=
  hunter_message_respects_max_length (String.toList "abcdefgh")
    (String.toList "Ann") [] none none [] 5 hunterWitnessR (by decide) (by decide)

/-- C2 (amended): when the generated text exceeds `max_length`, the hunter
truncation takes the first `max_length` characters and truncates at the
last `'.'` or `'?'` of that window (inclusive) exactly when that cut point
lies STRICTLY after 60% of `max_length` (`10 * k > 6 * max_length` for the
cut index `k`); otherwise — including a cut point exactly at 60% — it cuts
to `max_length - 3` characters and appends an ellipsis.  (The code compares
with `>`, not `>=`.) -/
theorem hunter_truncation_strictly_after_sixty_percent
    (s : List Char) (m k : Nat) (hm : 3 ≤ m) (hlen : m < s.length)
    (hk : (s.take m)[k]? = some '.' ∨ (s.take m)[k]? = some '?')
    (hgr : ∀ j : Nat, j < m → k < j →
      (s.take m)[j]? ≠ some '.' ∧ (s.take m)[j]? ≠ some '?') :
    (6 * m < 10 * k → truncateHunter s m = (s.take m).take (k + 1)) ∧
    (10 * k ≤ 6 * m →
      truncateHunter s m = (s.take m).take (m - 3) ++ String.toList "...") := by
  have htl : (s.take m).length = m := by rw [List.length_take]; omega
  have hgr' : ∀ j : Nat, k < j →
      (s.take m)[j]? ≠ some '.' ∧ (s.take m)[j]? ≠ some '?' := by
    intro j hj
    by_cases hjm : j < m
    · exact hgr j hjm hj
    · have hnone : (s.take m)[j]? = none := List.getElem?_eq_none (by omega)
      rw [hnone]
      exact ⟨by simp, by simp⟩
  have hbound : ∀ c : Char, (c = '.' ∨ c = '?') →
      rfind (s.take m) c ≤ (k : Int) := by
    intro c hc
    cases hra : rfindAux (s.take m) c with
    | none => simp [rfind, hra]; omega
    | some n =>
      simp only [rfind, hra]
      by_contra hlt
      push_neg at hlt
      have hkn : k < n := by exact_mod_cast hlt
      have hget := rfindAux_getElem hra
      rcases hc with rfl | rfl
      · exact (hgr' n hkn).1 hget
      · exact (hgr' n hkn).2 hget
  have hat : rfind (s.take m) '.' = (k : Int) ∨ rfind (s.take m) '?' = (k : Int) := by
    rcases hk with h1 | h1
    · left
      cases hra : rfindAux (s.take m) '.' with
      | none => exact absurd h1 (rfindAux_none hra k)
      | some n =>
        have hle := hbound '.' (Or.inl rfl)
        simp only [rfind, hra] at hle ⊢
        have hge : ¬ n < k := fun hlt => rfindAux_greatest hra k hlt h1
        have hnk : n = k := by omega
        rw [hnk]
    · right
      cases hra : rfindAux (s.take m) '?' with
      | none => exact absurd h1 (rfindAux_none hra k)
      | some n =>
        have hle := hbound '?' (Or.inr rfl)
        simp only [rfind, hra] at hle ⊢
        have hge : ¬ n < k := fun hlt => rfindAux_greatest hra k hlt h1
        have hnk : n = k := by omega
        rw [hnk]
  have hcut : max (rfind (s.take m) '.') (rfind (s.take m) '?') = (k : Int) := by
    have h1 := hbound '.' (Or.inl rfl)
    have h2 := hbound '?' (Or.inr rfl)
    rcases hat with h3 | h3
    · exact le_antisymm (max_le h1 h2) (by rw [← h3]; exact le_max_left _ _)
    · exact le_antisymm (max_le h1 h2) (by rw [← h3]; exact le_max_right _ _)
  constructor
  · intro hcond
    unfold truncateHunter
    rw [if_pos hlen]
    dsimp only
    rw [hcut, if_pos (by omega : 6 * (m : Int) < 10 * (k : Int))]
    have htn : ((k : Int) + 1).toNat = k + 1 := by omega
    rw [htn]
  · intro hcond
    unfold truncateHunter
    rw [if_pos hlen]
    dsimp only
    rw [hcut, if_neg (by omega : ¬ 6 * (m : Int) < 10 * (k : Int))]
    have h0 : (0 : Int) ≤ (m : Int) - 3 := by omega
    simp only [pySliceTo, if_pos h0]
    have htn : ((m : Int) - 3).toNat = m - 3 := by omega
    rw [htn]

/-- C2 counterexample: for the generated text `"abc.ef"` and
`max_length = 5`, the last sentence end of the 5-character window sits
exactly AT 60% of `max_length` (index 3, `10 * 3 = 6 * 5`), yet the code
does not truncate at the cut point as the claim states — it hard-cuts to
`max_length - 3` characters plus an ellipsis, because it compares with a
strict `>`. -/
theorem hunter_truncation_at_boundary_counterexample :
    ((String.toList "abc.ef").take 5)[3]? = some '.' ∧
    (∀ j : Nat, j < 5 → 3 < j →
      ((String.toList "abc.ef").take 5)[j]? ≠ some '.' ∧
      ((String.toList "abc.ef").take 5)[j]? ≠ some '?') ∧
    6 * 5 ≤ 10 * 3 ∧
    5 < (String.toList "abc.ef").length ∧
    truncateHunter (String.toList "abc.ef") 5 ≠
      ((String.toList "abc.ef").take 5).take (3 + 1) ∧
    truncateHunter (String.toList "abc.ef") 5 =
      ((String.toList "abc.ef").take 5).take (5 - 3) ++ String.toList "..." := by
  decide

/-- C2 witness: the amended rule at a concrete input whose cut point lies
strictly after 60% of the limit. -/
theorem hunter_truncation_strictly_after_sixty_percent_check :
    truncateHunter (String.toList "abcd.x") 5 =
      ((String.toList "abcd.x").take 5).take (4 + 1) :=
  (hunter_truncation_strictly_after_sixty_percent (String.toList "abcd.x") 5 4
    (by decide) (by decide) (by decide) (by decide)).1 (by decide)

/-- C3 (amended): when the role-specific cold-email candidate is empty or
absent, `get_cold_email` falls back in the strict order `final_content`
then `tailored_content` then none for `resume_context`, returns
`fallback_used = true`, and sets `source_field` to `"final_content"` when
`final_content` is non-empty and to `"tailored_content"` otherwise — even
when both fields are empty (it is never null for an existing record); in
particular, whenever `final_content` is non-empty, `source_field` is never
`"tailored_content"`. -/
theorem get_cold_email_fallback_order
    (env : Env) (application_id : Int) (contact_type : String)
    (rd : GeneratedResumeRecord)
    (hrec : env.generated_resumes application_id = some rd)
    (hcand : roleColdEmail rd contact_type = none) :
    (get_cold_email env application_id contact_type).fallback_used = true ∧
    (get_cold_email env application_id contact_type).cold_email = none ∧
    (get_cold_email env application_id contact_type).resume_context =
      (if rd.final_content ≠ [] then some rd.final_content
       else if rd.tailored_content ≠ [] then some rd.tailored_content
       else none) ∧
    (get_cold_email env application_id contact_type).source_field =
      some (if rd.final_content ≠ [] then "final_content"
            else "tailored_content") ∧
    (rd.final_content ≠ [] →
      (get_cold_email env application_id contact_type).source_field ≠
        some "tailored_content") := by
  have hr : get_cold_email env application_id contact_type =
      { cold_email := none,
        resume_context :=
          if rd.final_content ≠ [] then some rd.final_content
          else if rd.tailored_content ≠ [] then some rd.tailored_content
          else none,
        fallback_used := true,
        source_field :=
          some (if rd.final_content ≠ [] then "final_content"
                else "tailored_content"),
        note := none } := by
    unfold get_cold_email get_tailored_resume
    rw [hrec]
    dsimp only
    rw [hcand]
  rw [hr]
  refine ⟨rfl, rfl, rfl, rfl, ?_⟩
  intro hfc
  simp [if_pos hfc]

/-- A `generated_resumes` row whose every text field is empty. -/
def emptyResumeRecord : GeneratedResumeRecord :=
  { tailored_content := [], final_content := [],
    cold_email_recruiter := [], cold_email_manager := [] }

/-- A store holding only the all-empty row, at application id 7. -/
def envC3 : Env :=
  { generated_resumes := fun i => if i = 7 then some emptyResumeRecord else none,
    active_full_text := [] }

/-- C3 counterexample: for an existing record whose `final_content` and
`tailored_content` are both empty (and no role-specific cold email — here a
`team_member` call), `get_cold_email` sets `source_field` to
`"tailored_content"`, not to null as the claim states. -/
theorem get_cold_email_source_field_counterexample :
    emptyResumeRecord.final_content = [] ∧
    emptyResumeRecord.tailored_content = [] ∧
    roleColdEmail emptyResumeRecord "team_member" = none ∧
    envC3.generated_resumes 7 = some emptyResumeRecord ∧
    (get_cold_email envC3 7 "team_member").fallback_used = true ∧
    (get_cold_email envC3 7 "team_member").resume_context = none ∧
    (get_cold_email envC3 7 "team_member").source_field = some "tailored_content" ∧
    (get_cold_email envC3 7 "team_member").source_field ≠ none := by
  decide

/-- A `generated_resumes` row with both resume contents present but no
cold emails. -/
def witnessResumeRecord : GeneratedResumeRecord :=
  { tailored_content := String.toList "tailored resume text",
    final_content := String.toList "final resume text",
    cold_email_recruiter := [], cold_email_manager := [] }

/-- A store holding only that row, at application id 9. -/
def envC3w : Env :=
  { generated_resumes := fun i => if i = 9 then some witnessResumeRecord else none,
    active_full_text := [] }

/-- C3 witness: the amended fallback contract at a concrete record with a
non-empty `final_content`. -/
theorem get_cold_email_fallback_order_check :
    (get_cold_email envC3w 9 "team_member").fallback_used = true ∧
    (get_cold_email envC3w 9 "team_member").cold_email = none ∧
    (get_cold_email envC3w 9 "team_member").resume_context =
      (if witnessResumeRecord.final_content ≠ [] then some witnessResumeRecord.final_content
       else if witnessResumeRecord.tailored_content ≠ [] then some witnessResumeRecord.tailored_content
       else none) ∧
    (get_cold_email envC3w 9 "team_member").source_field =
      some (if witnessResumeRecord.final_content ≠ [] then "final_content"
            else "tailored_content") ∧
    (witnessResumeRecord.final_content ≠ [] →
      (get_cold_email envC3w 9 "team_member").source_field ≠ some "tailored_content") :=
  get_cold_email_fallback_order envC3w 9 "team_member" witnessResumeRecord
    (by decide) (by decide)

/-- C4: the outreach context resolver fails exactly when the initial
contact fetch reports failure, propagating the adapter's error message
unchanged; a resume-link value that does not parse as an integer is
non-fatal (null/fallback cold-email fields plus a recorded note, in a
success result), and a missing generated-resume record is likewise
non-fatal. -/
theorem get_outreach_context_failure_boundary (env : Env) (fetch : ContactJobFetch) :
    (∀ e, fetch.success = false → fetch.error = some e →
      get_outreach_context env fetch = OutreachContextResult.failure e) ∧
    (∀ err, get_outreach_context env fetch = OutreachContextResult.failure err →
      fetch.success = false) ∧
    (fetch.success = true →
      ∃ ctx, get_outreach_context env fetch = OutreachContextResult.ok ctx) ∧
    (∀ s, fetch.success = true → fetch.resume_postgres_id = some s → s ≠ "" →
      pyParseInt s = none →
      get_outreach_context env fetch = OutreachContextResult.ok
        { cold_email := none, resume_context := none, fallback_used := true,
          source_field := none,
          has_epic_gap :=
            (resolve_epic_step env fetch.job_description fetch.resume_postgres_id).has_gap,
          epic_recommendation :=
            (resolve_epic_step env fetch.job_description fetch.resume_postgres_id).recommendation } ∧
      (resolve_cold_email_step env fetch.contact_type fetch.resume_postgres_id).note =
        some ("Invalid resume_postgres_id: " ++ s)) ∧
    (∀ s i, fetch.success = true → fetch.resume_postgres_id = some s → s ≠ "" →
      pyParseInt s = some i → env.generated_resumes i = none →
      get_outreach_context env fetch = OutreachContextResult.ok
        { cold_email := none, resume_context := none, fallback_used := true,
          source_field := none,
          has_epic_gap :=
            (resolve_epic_step env fetch.job_description fetch.resume_postgres_id).has_gap,
          epic_recommendation :=
            (resolve_epic_step env fetch.job_description fetch.resume_postgres_id).recommendation }) := by
  refine ⟨?_, ?_, ?_, ?_, ?_⟩
  · intro e h1 h2
    unfold get_outreach_context
    rw [if_neg (by simp [h1]), h2]
    rfl
  · intro err h
    cases hfs : fetch.success with
    | false => rfl
    | true =>
      unfold get_outreach_context at h
      rw [if_pos hfs] at h
      simp at h
  · intro hs
    unfold get_outreach_context
    rw [if_pos hs]
    exact ⟨_, rfl⟩
  · intro s hs hrid hne hparse
    have htr : optStrTruthy (some s) = true := by
      simp only [optStrTruthy]
      rw [if_neg hne]
    have hstep : resolve_cold_email_step env fetch.contact_type fetch.resume_postgres_id =
        { emptyColdEmailData with
          note := some ("Invalid resume_postgres_id: " ++ s) } := by
      unfold resolve_cold_email_step
      rw [hrid, if_pos htr, Option.getD_some, hparse]
    constructor
    · unfold get_outreach_context
      rw [if_pos hs, hstep]
      rfl
    · rw [hstep]
  · intro s i hs hrid hne hparse hmiss
    have htr : optStrTruthy (some s) = true := by
      simp only [optStrTruthy]
      rw [if_neg hne]
    have hce : get_cold_email env i fetch.contact_type =
        { cold_email := none, resume_context := none, fallback_used := true,
          source_field := none, note := some (noResumeError i) } := by
      unfold get_cold_email get_tailored_resume
      rw [hmiss]
    have hstep : resolve_cold_email_step env fetch.contact_type fetch.resume_postgres_id =
        { cold_email := none, resume_context := none, fallback_used := true,
          source_field := none, note := some (noResumeError i) } := by
      unfold resolve_cold_email_step
      rw [hrid, if_pos htr, Option.getD_some, hparse]
      exact hce
    unfold get_outreach_context
    rw [if_pos hs, hstep]

/-- An empty store for the C4 witness. -/
def envC4 : Env :=
  { generated_resumes := fun _ => none, active_full_text := [] }

/-- A fetch whose adapter reported failure. -/
def fetchFailC4 : ContactJobFetch :=
  { success := false, error := some "Contact not found: boom",
    contact_type := "team_member", resume_postgres_id := none,
    job_description := [] }

/-- A successful fetch whose resume link does not parse as an integer. -/
def fetchParseC4 : ContactJobFetch :=
  { success := true, error := none, contact_type := "team_member",
    resume_postgres_id := some "recABC", job_description := [] }

/-- C4 witness: the boundary contract at two concrete fetches — a reported
adapter failure propagates its message, and a non-integer resume link
degrades to a success result with null fields plus a recorded note. -/
theorem get_outreach_context_failure_boundary_check :
    get_outreach_context envC4 fetchFailC4 =
      OutreachContextResult.failure "Contact not found: boom" ∧
    (get_outreach_context envC4 fetchParseC4 = OutreachContextResult.ok
      { cold_email := none, resume_context := none, fallback_used := true,
        source_field := none,
        has_epic_gap := (resolve_epic_step envC4 fetchParseC4.job_description
          fetchParseC4.resume_postgres_id).has_gap,
        epic_recommendation := (resolve_epic_step envC4 fetchParseC4.job_description
          fetchParseC4.resume_postgres_id).recommendation } ∧
     (resolve_cold_email_step envC4 fetchParseC4.contact_type
        fetchParseC4.resume_postgres_id).note =
       some ("Invalid resume_postgres_id: " ++ "recABC")) :=
  ⟨(get_outreach_context_failure_boundary envC4 fetchFailC4).1
      "Contact not found: boom" rfl rfl,
   (get_outreach_context_failure_boundary envC4 fetchParseC4).2.2.2.1
      "recABC" rfl rfl (by decide) (by decide)⟩

/-- C5: the pipeline router returns `"farmer"` exactly when
`connection_degree == "1st"` or `contact_source == "csv_import"`, and
`"hunter"` otherwise, including the four concrete routings of the spec.
It is a pure function of its two arguments (it is defined as one: no state
appears in its signature). -/
theorem determine_pipeline_rule (connection_degree contact_source : String) :
    (determine_pipeline connection_degree contact_source = "farmer" ↔
      (connection_degree = "1st" ∨ contact_source = "csv_import")) ∧
    (determine_pipeline connection_degree contact_source = "hunter" ↔
      ¬(connection_degree = "1st" ∨ contact_source = "csv_import")) ∧
    determine_pipeline "1st" "apollo" = "farmer" ∧
    determine_pipeline "2nd" "csv_import" = "farmer" ∧
    determine_pipeline "2nd" "apollo" = "hunter" ∧
    determine_pipeline "3rd" "apollo" = "hunter" := by
  refine ⟨⟨?_, ?_⟩, ⟨?_, ?_⟩, by decide, by decide, by decide, by decide⟩
  · intro heq
    by_contra hn
    unfold determine_pipeline at heq
    rw [if_neg hn] at heq
    exact absurd heq (by decide)
  · intro h
    unfold determine_pipeline
    rw [if_pos h]
  · intro heq hor
    unfold determine_pipeline at heq
    rw [if_pos hor] at heq
    exact absurd heq (by decide)
  · intro hn
    unfold determine_pipeline
    rw [if_neg hn]

/-- Substring membership agrees with the list-infix relation: the spec-side
reading of "case-insensitive substring containment". -/
theorem pyIn_iff_infix (needle hay : List Char) :
    pyIn needle hay = true ↔ List.IsInfix needle hay := by
  induction hay with
  | nil => simp [pyIn]
  | cons c rest ih =>
    simp only [pyIn, Bool.or_eq_true, List.isPrefixOf_iff_prefix, ih,
      List.infix_cons_iff]

/-- C6: `check_skill_match` computes `requirement_found` and `skill_found`
by case-insensitive substring containment only, returns
`has_gap = requirement_found AND NOT skill_found`, and returns the fixed
templated recommendation exactly when `has_gap` is true (null otherwise);
the resolved resume text enters only through `resolveResumeText`. -/
theorem check_skill_match_containment (env : Env)
    (job_description skill resume_text : List Char) (application_id : Option Int) :
    ((skill_match_core job_description skill resume_text).requirement_found = true ↔
      List.IsInfix (pyLower skill) (pyLower job_description)) ∧
    ((skill_match_core job_description skill resume_text).skill_found = true ↔
      List.IsInfix (pyLower skill) (pyLower resume_text)) ∧
    ((skill_match_core job_description skill resume_text).has_gap =
      ((skill_match_core job_description skill resume_text).requirement_found &&
       !(skill_match_core job_description skill resume_text).skill_found)) ∧
    ((skill_match_core job_description skill resume_text).recommendation ≠ none ↔
      (skill_match_core job_description skill resume_text).has_gap = true) ∧
    ((skill_match_core job_description skill resume_text).has_gap = true →
      (skill_match_core job_description skill resume_text).recommendation =
        some (recommendationText skill)) ∧
    (check_skill_match env job_description skill application_id =
      skill_match_core job_description skill
        (resolveResumeText env application_id)) := by
  have h1 : (skill_match_core job_description skill resume_text).requirement_found =
      pyIn (pyLower skill) (pyLower job_description) := rfl
  have h2 : (skill_match_core job_description skill resume_text).skill_found =
      pyIn (pyLower skill) (pyLower resume_text) := rfl
  have h3 : (skill_match_core job_description skill resume_text).has_gap =
      (pyIn (pyLower skill) (pyLower job_description) &&
       !(pyIn (pyLower skill) (pyLower resume_text))) := rfl
  have h4 : (skill_match_core job_description skill resume_text).recommendation =
      (if pyIn (pyLower skill) (pyLower job_description) &&
          !(pyIn (pyLower skill) (pyLower resume_text)) then
        some (recommendationText skill)
      else none) := rfl
  refine ⟨by rw [h1]; exact pyIn_iff_infix _ _,
          by rw [h2]; exact pyIn_iff_infix _ _,
          by rw [h3, h1, h2],
          ?_, ?_, rfl⟩
  · rw [h4, h3]
    by_cases hb : (pyIn (pyLower skill) (pyLower job_description) &&
        !(pyIn (pyLower skill) (pyLower resume_text))) = true
    · simp [hb]
    · simp [hb]
  · intro hg
    rw [h3] at hg
    rw [h4, if_pos hg]

/-- C6 witness: the containment contract at the spec's Epic example. -/
theorem check_skill_match_containment_check :
    ((skill_match_core (String.toList "Requires Epic EHR experience")
        epicChars (String.toList "python developer")).requirement_found = true ↔
      List.IsInfix (pyLower epicChars)
        (pyLower (String.toList "Requires Epic EHR experience"))) ∧
    ((skill_match_core (String.toList "Requires Epic EHR experience")
        epicChars (String.toList "python developer")).skill_found = true ↔
      List.IsInfix (pyLower epicChars) (pyLower (String.toList "python developer"))) ∧
    ((skill_match_core (String.toList "Requires Epic EHR experience")
        epicChars (String.toList "python developer")).has_gap =
      ((skill_match_core (String.toList "Requires Epic EHR experience")
          epicChars (String.toList "python developer")).requirement_found &&
       !(skill_match_core (String.toList "Requires Epic EHR experience")
          epicChars (String.toList "python developer")).skill_found)) ∧
    ((skill_match_core (String.toList "Requires Epic EHR experience")
        epicChars (String.toList "python developer")).recommendation ≠ none ↔
      (skill_match_core (String.toList "Requires Epic EHR experience")
        epicChars (String.toList "python developer")).has_gap = true) ∧
    ((skill_match_core (String.toList "Requires Epic EHR experience")
        epicChars (String.toList "python developer")).has_gap = true →
      (skill_match_core (String.toList "Requires Epic EHR experience")
        epicChars (String.toList "python developer")).recommendation =
        some (recommendationText epicChars)) ∧
    (check_skill_match envC4 (String.toList "Requires Epic EHR experience")
        epicChars (some 3) =
      skill_match_core (String.toList "Requires Epic EHR experience") epicChars
        (resolveResumeText envC4 (some 3))) :=
  check_skill_match_containment envC4 (String.toList "Requires Epic EHR experience")
    epicChars (String.toList "python developer") (some 3)

/-- C7: the value section is selected by strict priority — a truthy
cold_email_template (800-character excerpt) first; else a truthy
resume_context (500-character excerpt); else a non-empty resume_highlights
(500-character excerpt); else the fixed "no background provided"
sentence — so a lower-priority source is never used while a
higher-priority one is non-empty. -/
theorem build_value_section_priority
    (cold_email_template resume_context : Option (List Char))
    (resume_highlights : List Char) :
    (optTruthy cold_email_template = true →
      _build_value_section cold_email_template resume_context resume_highlights =
        coldEmailSectionHeader ++ (cold_email_template.getD []).take 800) ∧
    (optTruthy cold_email_template = false → optTruthy resume_context = true →
      _build_value_section cold_email_template resume_context resume_highlights =
        resumeSectionHeader ++ (resume_context.getD []).take 500) ∧
    (optTruthy cold_email_template = false → optTruthy resume_context = false →
      resume_highlights ≠ [] →
      _build_value_section cold_email_template resume_context resume_highlights =
        highlightsSectionHeader ++ resume_highlights.take 500) ∧
    (optTruthy cold_email_template = false → optTruthy resume_context = false →
      resume_highlights = [] →
      _build_value_section cold_email_template resume_context resume_highlights =
        noBackgroundSentence) := by
  refine ⟨?_, ?_, ?_, ?_⟩
  · intro h1
    unfold _build_value_section
    rw [if_pos h1]
  · intro h1 h2
    unfold _build_value_section
    rw [if_neg (by simp [h1]), if_pos h2]
  · intro h1 h2 h3
    unfold _build_value_section
    rw [if_neg (by simp [h1]), if_neg (by simp [h2]), if_pos h3]
  · intro h1 h2 h3
    unfold _build_value_section
    rw [if_neg (by simp [h1]), if_neg (by simp [h2]), if_neg (by simp [h3])]

/-- C7 witness: each priority tier at a concrete input. -/
theorem build_value_section_priority_check :
    _build_value_section (some (String.toList "cold email body"))
        (some (String.toList "resume body")) (String.toList "highlights") =
      coldEmailSectionHeader ++ ((some (String.toList "cold email body")).getD []).take 800 ∧
    _build_value_section none (some (String.toList "resume body"))
        (String.toList "highlights") =
      resumeSectionHeader ++ ((some (String.toList "resume body")).getD []).take 500 ∧
    _build_value_section none none (String.toList "highlights") =
      highlightsSectionHeader ++ (String.toList "highlights").take 500 ∧
    _build_value_section none none [] = noBackgroundSentence :=
  ⟨(build_value_section_priority (some (String.toList "cold email body"))
      (some (String.toList "resume body")) (String.toList "highlights")).1 (by decide),
   (build_value_section_priority none (some (String.toList "resume body"))
      (String.toList "highlights")).2.1 (by decide) (by decide),
   (build_value_section_priority none none (String.toList "highlights")).2.2.1
      (by decide) (by decide) (by decide),
   (build_value_section_priority none none []).2.2.2 (by decide) (by decide) rfl⟩

/-- C8: `refine_message` defaults `max_length` to 295 for the hunter
pipeline when no explicit limit is given (and leaves the given limit — in
particular null — untouched for the farmer pipeline); a generated result
exceeding a present limit `m` (with `3 ≤ m`, e.g. the default 295) is
hard-truncated to `m - 3` characters plus an ellipsis, never
sentence-aware; and with no limit the stripped result passes through
untruncated. -/
theorem refine_message_default_and_hard_cut (generated : List Char)
    (max_length : Option Nat) (pipeline : String) :
    (pipeline = "hunter" → max_length = none →
      (refine_message generated max_length pipeline).max_allowed = some 295) ∧
    (pipeline = "farmer" →
      (refine_message generated max_length pipeline).max_allowed = max_length) ∧
    (∀ m : Nat, effectiveMax max_length pipeline = some m → 3 ≤ m →
      m < (pyStripQuotes (pyStripWs generated)).length →
      (refine_message generated max_length pipeline).message =
        (pyStripQuotes (pyStripWs generated)).take (m - 3) ++ String.toList "...") ∧
    (effectiveMax max_length pipeline = none →
      (refine_message generated max_length pipeline).message =
        pyStripQuotes (pyStripWs generated)) := by
  have hma : (refine_message generated max_length pipeline).max_allowed =
      effectiveMax max_length pipeline := rfl
  have hmm : (refine_message generated max_length pipeline).message =
      (match effectiveMax max_length pipeline with
       | some m =>
         if m ≠ 0 ∧ m < (pyStripQuotes (pyStripWs generated)).length then
           pySliceTo (pyStripQuotes (pyStripWs generated)) ((m : Int) - 3) ++
             String.toList "..."
         else pyStripQuotes (pyStripWs generated)
       | none => pyStripQuotes (pyStripWs generated)) := rfl
  refine ⟨?_, ?_, ?_, ?_⟩
  · intro h1 h2
    rw [hma]
    unfold effectiveMax
    rw [if_pos ⟨h1, h2⟩]
  · intro h1
    rw [hma]
    unfold effectiveMax
    rw [if_neg]
    rintro ⟨hh, _⟩
    rw [h1] at hh
    exact absurd hh (by decide)
  · intro m hm h3 hlen
    rw [hmm, hm]
    dsimp only
    rw [if_pos ⟨by omega, hlen⟩]
    have h0 : (0 : Int) ≤ (m : Int) - 3 := by omega
    simp only [pySliceTo, if_pos h0]
    have htn : ((m : Int) - 3).toNat = m - 3 := by omega
    rw [htn]
  · intro hm
    rw [hmm, hm]

set_option maxRecDepth 4000 in
/-- C8 witness: the defaulted hunter limit and the hard cut on a 300
character response, and the untouched farmer limit. -/
theorem refine_message_default_and_hard_cut_check :
    (refine_message (List.replicate 300 'a') none "hunter").max_allowed = some 295 ∧
    (refine_message (List.replicate 300 'a') none "hunter").message =
      (pyStripQuotes (pyStripWs (List.replicate 300 'a'))).take (295 - 3) ++
        String.toList "..." ∧
    (refine_message (List.replicate 300 'a') none "farmer").max_allowed = none :=
  ⟨(refine_message_default_and_hard_cut (List.replicate 300 'a') none "hunter").1
      rfl rfl,
   (refine_message_default_and_hard_cut (List.replicate 300 'a') none "hunter").2.2.1
      295 (by decide) (by decide) (by decide),
   (refine_message_default_and_hard_cut (List.replicate 300 'a') none "farmer").2.1
      rfl⟩

/-- C9: the `has_epic_gap` field of a hunter generation equals
("epic" occurs case-insensitively in the job description) AND NOT
("epic" occurs case-insensitively in `resume_context` if that is
non-empty, else in `resume_highlights`); the gap is recomputed locally from
those two fields only, and the result's gap flag is identical for any two
values of `cold_email_template`. -/
theorem hunter_epic_gap_recomputed
    (generated contact_name job_description : List Char)
    (cold_email_template cet2 resume_context : Option (List Char))
    (resume_highlights : List Char) (max_length : Nat) (r : HunterResult)
    (h : generate_cold_connect_note generated contact_name job_description
      cold_email_template resume_context resume_highlights max_length = some r) :
    r.has_epic_gap =
      (pyIn epicChars (pyLower job_description) &&
       !(pyIn epicChars (pyLower
          (if optTruthy resume_context then resume_context.getD []
           else resume_highlights)))) ∧
    (generate_cold_connect_note generated contact_name job_description
        cold_email_template resume_context resume_highlights max_length).map
      HunterResult.has_epic_gap =
    (generate_cold_connect_note generated contact_name job_description
        cet2 resume_context resume_highlights max_length).map
      HunterResult.has_epic_gap := by
  have hgap : r.has_epic_gap =
      ((if job_description ≠ [] then pyIn epicChars (pyLower job_description)
        else false) &&
       !(pyIn epicChars (pyLower (pyOrText resume_context resume_highlights)))) := by
    unfold generate_cold_connect_note at h
    cases hfn : firstNameOpt contact_name with
    | none => rw [hfn] at h; cases h
    | some fn =>
      rw [hfn] at h
      simp only [Option.some.injEq] at h
      rw [← h]
  constructor
  · rw [hgap]
    by_cases hjd : job_description = []
    · subst hjd
      have h1 : pyIn epicChars (pyLower []) = false := rfl
      simp [h1, pyOrText]
    · rw [if_pos hjd]
      rfl
  · rfl

/-- The concrete hunter result the C9 witness call returns: the backend
said `"ok"`, the job description requires Epic, the highlights lack it. -/
def hunterEpicR : HunterResult :=
  { success := true, message := String.toList "ok", char_count := 2,
    max_allowed := 295, has_epic_gap := true,
    msg_type := "cold_connect_note", pipeline := "hunter" }

/-- C9 witness: a concrete hunter call whose job description requires Epic
while the highlights lack it. -/
theorem hunter_epic_gap_recomputed_check :
    hunterEpicR.has_epic_gap =
      (pyIn epicChars (pyLower (String.toList "Epic certification required")) &&
       !(pyIn epicChars (pyLower
          (if optTruthy (none : Option (List Char)) then
            (none : Option (List Char)).getD []
           else String.toList "python developer")))) ∧
    (generate_cold_connect_note (String.toList "ok") (String.toList "Bo")
        (String.toList "Epic certification required")
        (some (String.toList "cold email")) none
        (String.toList "python developer") 295).map HunterResult.has_epic_gap =
    (generate_cold_connect_note (String.toList "ok") (String.toList "Bo")
        (String.toList "Epic certification required")
        none none
        (String.toList "python developer") 295).map HunterResult.has_epic_gap :=
  hunter_epic_gap_recomputed (String.toList "ok") (String.toList "Bo")
    (String.toList "Epic certification required")
    (some (String.toList "cold email")) none none
    (String.toList "python developer") 295 hunterEpicR (by decide)

theorem splitWsGo_all_space (s : List Char)
    (h : ∀ c ∈ s, pyIsSpace c = true) : splitWsGo s [] = [] := by
  induction s with
  | nil => rfl
  | cons a rest ih =>
    have ha : pyIsSpace a = true := h a (List.mem_cons_self a rest)
    have hr := ih (fun c hc => h c (List.mem_cons_of_mem a hc))
    simp [splitWsGo, ha, hr]

/-- A whitespace-only string splits to no tokens. -/
theorem pySplitWs_all_space (s : List Char)
    (h : ∀ c ∈ s, pyIsSpace c = true) : pySplitWs s = [] :=
  splitWsGo_all_space s h

/-- C10: first-name extraction is not total — for every non-empty,
whitespace-only `contact_name`, both `generate_cold_connect_note` and
`generate_warm_dm` hit the `IndexError` of `contact_name.split()[0]`
(modelled as `none`); the extraction takes the `"there"` default branch
only for the empty string, and otherwise reads the head of the split. -/
theorem whitespace_contact_name_not_total
    (contact_name generated job_description : List Char)
    (cold_email_template resume_context : Option (List Char))
    (resume_highlights : List Char) (warm_highlights : Option (List Char))
    (max_length : Nat)
    (hne : contact_name ≠ [])
    (hsp : ∀ c ∈ contact_name, pyIsSpace c = true) :
    generate_cold_connect_note generated contact_name job_description
      cold_email_template resume_context resume_highlights max_length = none ∧
    generate_warm_dm generated contact_name
      cold_email_template resume_context warm_highlights = none ∧
    firstNameOpt contact_name = (pySplitWs contact_name).head? ∧
    firstNameOpt [] = some (String.toList "there") := by
  have hempty : ¬(contact_name.isEmpty = true) := by
    simp [List.isEmpty_iff, hne]
  have hfn : firstNameOpt contact_name = none := by
    unfold firstNameOpt
    rw [if_neg hempty, pySplitWs_all_space contact_name hsp]
    rfl
  refine ⟨?_, ?_, ?_, rfl⟩
  · unfold generate_cold_connect_note
    rw [hfn]
  · unfold generate_warm_dm
    rw [hfn]
  · unfold firstNameOpt
    rw [if_neg hempty]

/-- C10 witness: a two-space contact name crashes both generators, while
the empty name takes the `"there"` default. -/
theorem whitespace_contact_name_not_total_check :
    generate_cold_connect_note (String.toList "hello") (String.toList "  ")
      [] none none [] 295 = none ∧
    generate_warm_dm (String.toList "hello") (String.toList "  ")
      none none none = none ∧
    firstNameOpt (String.toList "  ") = (pySplitWs (String.toList "  ")).head? ∧
    firstNameOpt [] = some (String.toList "there") :=
  whitespace_contact_name_not_total (String.toList "  ") (String.toList "hello")
    [] none none [] none 295 (by decide) (by decide)
